import Mathlib

/-!
Shallow embedding of the college-voice-assistance server (Express + in-memory
storage) for verification of its natural-language specification.

Modelling conventions:
* JavaScript strings are modelled as Lean `String` (lists of characters);
  `substring(0, n)` becomes `takeChars n`, `toLowerCase` maps `Char.toLower`
  over the characters, `trim` drops whitespace on both ends, and
  `s.includes(t)` is the executable substring test `strContains s t`.
* `randomUUID` is modelled as a fresh-id supply: the storage state carries a
  counter `nextId`, and each created record receives the current counter value.
* `Date` timestamps are modelled as a `Nat` clock passed to the handlers.
* External HTTP services (Groq chat completion, Cartesia TTS, ElevenLabs TTS)
  are modelled as outcome oracles carried in an environment record; the
  handlers additionally return the trace of outgoing HTTP calls, so that
  claims about which providers are contacted become statements about traces.
* JavaScript truthiness in defaulting expressions (`x || d`, where `x` may be
  `undefined`, the empty string or the number 0) is modelled explicitly by the
  `jsOr*` helpers.
* The floating comparison `hindiWordCount / totalWords > 0.2` is modelled by
  the exact rational comparison `5 * hindiWordCount > totalWords`.
-/

namespace CollegeVoice

/-- JS `String.prototype.toLowerCase`, restricted to the ASCII range that the
keyword patterns of the server use. -/
def lowerStr (s : String) : String := ⟨s.data.map Char.toLower⟩

/-- Boolean test that the first character list is a prefix of the second. -/
def startsWithL : List Char → List Char → Bool
  | [], _ => true
  | _ :: _, [] => false
  | a :: as, b :: bs => a == b && startsWithL as bs

/-- Boolean substring test on character lists: does `needle` occur
contiguously inside the second argument? -/
def containsSubstr (needle : List Char) : List Char → Bool
  | [] => needle.isEmpty
  | c :: rest => startsWithL needle (c :: rest) || containsSubstr needle rest

/-- JS `hay.includes(needle)`. -/
def strContains (hay needle : String) : Bool := containsSubstr needle.data hay.data

/-- JS `String.prototype.trim`: drop whitespace from both ends. -/
def trimStr (s : String) : String :=
  ⟨((s.data.dropWhile Char.isWhitespace).reverse.dropWhile Char.isWhitespace).reverse⟩

/-- JS `s.substring(0, n)` (characters modelled as code points). -/
def takeChars (n : Nat) (s : String) : String := ⟨s.data.take n⟩

/-- JS `x || d` for an optional string `x`: `undefined` and `""` are falsy. -/
def jsOrStr : Option String → String → String
  | some s, d => if s = "" then d else s
  | none, d => d

/-- JS `x || d` for an optional number `x`: `undefined` and `0` are falsy. -/
def jsOrRat : Option ℚ → ℚ → ℚ
  | some x, d => if x = 0 then d else x
  | none, d => d

/-- Data model of the `college_info` table (ids drawn from the fresh-id
supply that models `randomUUID`). -/
structure CollegeInfo where
  id : Nat
  category : String
  title : String
  content : String
  metadata : Option String
deriving Repr, DecidableEq

/-- Insert shape for `college_info` (no id yet). -/
structure InsertCollegeInfo where
  category : String
  title : String
  content : String
  metadata : Option String
deriving Repr, DecidableEq

/-- Data model of the `chat_messages` table. -/
structure ChatMessage where
  id : Nat
  content : String
  role : String
  language : Option String
  timestamp : Nat
deriving Repr, DecidableEq

/-- Insert shape for `chat_messages`. -/
structure InsertChatMessage where
  content : String
  role : String
  language : Option String
deriving Repr, DecidableEq

/-- State of `MemStorage` (server/storage.ts): the in-memory chat-message and
college-info arrays, plus the fresh-id counter modelling `randomUUID`. -/
structure MemStorage where
  chatMessages : List ChatMessage
  collegeInfo : List CollegeInfo
  nextId : Nat
deriving Repr, DecidableEq

/-- `MemStorage.createChatMessage`: append a timestamped message with a fresh
id. -/
def createChatMessage (s : MemStorage) (m : InsertChatMessage) (now : Nat) :
    ChatMessage × MemStorage :=
  let msg : ChatMessage :=
    { id := s.nextId, content := m.content, role := m.role,
      language := m.language, timestamp := now }
  (msg, { s with chatMessages := s.chatMessages ++ [msg], nextId := s.nextId + 1 })

/-- `MemStorage.getCollegeInfo`: return the whole fact store. -/
def getCollegeInfo (s : MemStorage) : List CollegeInfo × MemStorage :=
  (s.collegeInfo, s)

/-- `MemStorage.getCollegeInfoByCategory`: linear filter by strict category
equality. -/
def getCollegeInfoByCategory (s : MemStorage) (category : String) :
    List CollegeInfo × MemStorage :=
  (s.collegeInfo.filter (fun info => info.category == category), s)

/-- `MemStorage.createCollegeInfo`: append one record with a fresh id
(`metadata ?? null` keeps the optional metadata as given). -/
def createCollegeInfo (s : MemStorage) (info : InsertCollegeInfo) :
    CollegeInfo × MemStorage :=
  let record : CollegeInfo :=
    { id := s.nextId, category := info.category, title := info.title,
      content := info.content, metadata := info.metadata }
  (record, { s with collegeInfo := s.collegeInfo ++ [record], nextId := s.nextId + 1 })

/-- `MemStorage.searchCollegeInfo`: lowercase the query once, keep the records
whose lowercased title, content or category contains it. -/
def searchCollegeInfo (s : MemStorage) (query : String) :
    List CollegeInfo × MemStorage :=
  let searchTerm := lowerStr query
  (s.collegeInfo.filter (fun info =>
      strContains (lowerStr info.title) searchTerm ||
      strContains (lowerStr info.content) searchTerm ||
      strContains (lowerStr info.category) searchTerm), s)

/-- Invariant of the fresh-id supply: every stored college-info id is below
the counter. -/
def collegeIdsFresh (s : MemStorage) : Prop :=
  ∀ r ∈ s.collegeInfo, r.id < s.nextId

/-! ## The `/api/ask` chat endpoint -/

/-- Outcome of the single Groq chat-completion HTTP call: a successful
response carrying `choices[0]?.message?.content` (possibly absent), a
non-success HTTP response, or a thrown exception (network failure). -/
inductive GroqOutcome where
  | ok (content : Option String)
  | httpError (status : Nat) (body : String)
  | throws
deriving Repr, DecidableEq

/-- Observable events of the `/api/ask` handler, in order: a persisted chat
message, or the outgoing chat-completion call with its system prompt and the
forwarded user message. -/
inductive AskEvent where
  | persist (role content : String)
  | groqCall (systemPromptText userMessage : String)
deriving Repr, DecidableEq

/-- The initial value of `assistantResponse`, which survives when the Groq
call throws or returns a falsy content. -/
def defaultAssistantResponse : String :=
  "Hello! I\x27m your RKSD Assistant. How can I help you today?"

/-- Canned reply for messages containing a greeting keyword. -/
def greetingFallback : String :=
  "Hello! I\x27m your RKSD Assistant. How can I help you with college information today?"

/-- Canned reply for messages containing the hostel keyword. -/
def hostelFallback : String :=
  "For hostel-related queries, please contact the hostel office during working hours. I can help you with general college information."

/-- Canned reply for messages containing the admission keyword. -/
def admissionFallback : String :=
  "For admission inquiries, please visit the RKSD College admission office or check our official website for the latest information."

/-- Canned reply echoing the user question when no keyword matches. -/
def genericFallback (message : String) : String :=
  "Thank you for your question about \"" ++ message ++
    "\". I\x27m here to help with RKSD College information. Could you please be more specific about what you\x27d like to know?"

/-- Keyword-matched canned replies chosen when the Groq call returns a
non-success HTTP response (the `else` branch on `groqResponse.ok`). -/
def fallbackReply (message : String) : String :=
  if strContains (lowerStr message) "hello" || strContains (lowerStr message) "hi" ||
      strContains (lowerStr message) "hlo" then greetingFallback
  else if strContains (lowerStr message) "hostel" then hostelFallback
  else if strContains (lowerStr message) "admission" then admissionFallback
  else genericFallback message

/-- The assistant reply produced from the Groq outcome: on success the
returned content unless falsy (`content || assistantResponse`), on a
non-success response the keyword-matched canned reply, and on a thrown
exception the untouched initial value. -/
def assistantResponseFor (message : String) (o : GroqOutcome) : String :=
  match o with
  | .ok content => jsOrStr content defaultAssistantResponse
  | .httpError _ _ => fallbackReply message
  | .throws => defaultAssistantResponse

/-- The college-context block: every record rendered `title: content`,
joined with newlines, in store order. -/
def contextOf (collegeData : List CollegeInfo) : String :=
  String.intercalate "\n" (collegeData.map (fun info => info.title ++ ": " ++ info.content))

/-- Fixed text of the system prompt before the interpolated context. -/
def promptHeader : String :=
  "You are RK, the official AI Assistant of RKSD College.  \nYour role is to act like a polite, professional staff member who guides students, parents, and staff naturally in conversation.  \n\nCollege Information:\n"

/-- Fixed text of the system prompt after the interpolated context. -/
def promptInstructions : String :=
  "\n\nInstructions:\n1. Always reply in natural Hinglish (a real mix of Hindi + English, the way people casually speak).  \n2. Speak politely and confidently, like a real staff member of RKSD College.  \n3. Responses should be short, clear, and meaningful — never robotic or confusing.  \n4. Use emojis where helpful (👋, 🎓, 📚, 🚌, 📞, ⏰), but keep them balanced.  \n5. Never repeat the same line in Hindi and English. Choose one language naturally.  \n6. Never use brackets, parentheses, or awkward phrases.  \n7. Always use natural correct words (✅ \"mera\", \"aapka\", \"tumhara\"; ❌ \"mujhka\", \"tumhka\").  \n8. Avoid meaningless or robotic lines (❌ \"Are you related to college?\").  \n9. If the user’s question is unclear, ask a smart follow-up (✅ \"Kya aap admission process ke baare me puch rahe ho?\").  \n10. If you don’t know something, admit it politely and guide them to the college office or official website.  \n\nStyle Examples:  \n- User: Namaste  \n- RK: Namaste! 👋 Main RK, RKSD College ka assistant hoon. Aap kaise hain?  \n\n- User: College me bus pass kaha se milega?  \n- RK: Bus pass ke liye aapko transport cell jaana hoga 🚌. Wahan form milega aur ID proof + admit card dena hoga. Form submit karte hi aapko bus pass mil jayega.  \n\n- User: Aapka naam kya hai?  \n- RK: Mera naam RK hai 🎓. Main RKSD College ka official assistant hoon, jo students aur staff ki madad ke liye banaya gaya hai."

/-- The full system prompt assembled from the fact store. -/
def systemPromptOf (collegeData : List CollegeInfo) : String :=
  promptHeader ++ contextOf collegeData ++ promptInstructions

/-- Reply persisted by the outer catch handler of `/api/ask`. -/
def technicalDifficulties : String :=
  "I\x27m experiencing some technical difficulties, but I\x27m here to help! Please try asking your question again, or contact RKSD College directly for urgent inquiries."

/-- JSON response of `/api/ask`: the assistant reply text and the id of the
persisted assistant message. -/
structure AskResult where
  response : String
  messageId : Nat
deriving Repr, DecidableEq

/-- The `/api/ask` handler. An empty message fails the zod validation
(`message: z.string().min(1)`) and lands in the outer catch, which persists
and returns the technical-difficulties reply. Otherwise the user message is
persisted, the Groq call is made with the assembled system prompt, and the
resulting assistant reply is persisted and returned. The third component is
the ordered trace of observable events. -/
def askHandler (s : MemStorage) (message : String) (language : Option String)
    (o : GroqOutcome) (now : Nat) : AskResult × MemStorage × List AskEvent :=
  if message = "" then
    let (m, s1) := createChatMessage s
      { content := technicalDifficulties, role := "assistant", language := some "en" } now
    ({ response := m.content, messageId := m.id }, s1, [.persist "assistant" m.content])
  else
    let (_userMsg, s1) := createChatMessage s
      { content := message, role := "user", language := some (jsOrStr language "en") } now
    let prompt := systemPromptOf s.collegeInfo
    let reply := assistantResponseFor message o
    let (saved, s2) := createChatMessage s1
      { content := reply, role := "assistant", language := some (jsOrStr language "en") } now
    ({ response := reply, messageId := saved.id }, s2,
      [.persist "user" message, .groqCall prompt message, .persist "assistant" reply])

/-! ## The `/api/tts` endpoint -/

/-- JS `text.split(/\s+/)`: split on maximal whitespace runs; a leading or
trailing run yields an empty token, and the empty string yields one empty
token, exactly as in JavaScript. -/
def splitWsGo (l : List Char) (acc : List Char) : List String :=
  match l with
  | [] => [⟨acc.reverse⟩]
  | c :: rest =>
    if c.isWhitespace then
      ⟨acc.reverse⟩ :: splitWsGo (rest.dropWhile Char.isWhitespace) []
    else
      splitWsGo rest (c :: acc)
termination_by l.length
decreasing_by
  · exact Nat.lt_succ_of_le (List.dropWhile_sublist Char.isWhitespace).length_le
  · exact Nat.lt_succ_self _

/-- JS `text.split(/\s+/)`. -/
def splitWs (s : String) : List String := splitWsGo s.data []

/-- The lexical-heuristic word list used by `detectLanguage`. -/
def hindiWords : List String :=
  ["aap", "hai", "hain", "kya", "kaise", "kahan", "namaste", "dhanyawad",
   "main", "hum", "kar", "karo", "karna", "kiya", "ghar", "paani", "khana",
   "college", "student", "teacher", "library", "hostel", "fees", "exam",
   "result", "madad", "help", "problem", "achha", "bura", "naya", "purana",
   "bada", "chota", "se", "ko", "ke", "ki", "ka", "me", "mein", "par", "pe",
   "tak", "aur", "ya", "lekin", "agar", "to", "phir", "fir", "kyun", "kyon",
   "kab", "kon", "kaun", "kitna", "kitni", "kitne"]

/-- `detectLanguage`: count the listed words occurring (as substrings) in the
lowercased text; tag the text `hi` when the count exceeds a fifth of the
whitespace-split word total (`hindiWordCount / totalWords > 0.2`, modelled
exactly over the rationals). -/
def detectLanguage (text : String) : String :=
  let lowerText := lowerStr text
  let hindiWordCount := (hindiWords.filter (fun w => strContains lowerText w)).length
  let totalWords := (splitWs text).length
  if 5 * hindiWordCount > totalWords then "hi" else "en"

/-- The Cartesia `speed` control: a named preset or a number in [-1, 1]. -/
inductive Speed where
  | preset (s : String)
  | num (q : ℚ)
deriving Repr, DecidableEq

/-- JS `speed || "normal"`: `undefined` and the number 0 are falsy; the
preset strings of the zod enum are all non-empty, hence truthy. -/
def speedOrNormal : Option Speed → Speed
  | some (.num q) => if q = 0 then .preset "normal" else .num q
  | some (.preset s) => .preset s
  | none => .preset "normal"

/-- JS `emotions && emotions.length > 0 ? emotions : ["positivity"]`. -/
def emotionsOrDefault : Option (List String) → List String
  | some es => if 0 < es.length then es else ["positivity"]
  | none => ["positivity"]

/-- A `/api/tts` request body after the zod parse. -/
structure TtsRequest where
  text : String
  voiceId : String
  modelId : Option String
  stability : Option ℚ
  similarityBoost : Option ℚ
  cartesiaModelId : Option String
  speed : Option Speed
  emotions : Option (List String)
  language : Option String
deriving Repr, DecidableEq

/-- The JSON body sent to `https://api.cartesia.ai/tts/bytes`. -/
structure CartesiaRequestBody where
  model_id : String
  transcript : String
  voiceMode : String
  voiceId : String
  speed : Speed
  emotion : List String
  outputContainer : String
  outputEncoding : String
  sampleRate : Nat
  language : String
deriving Repr, DecidableEq

/-- The JSON body sent to the ElevenLabs text-to-speech endpoint. -/
structure ElevenlabsRequestBody where
  text : String
  model_id : String
  stability : ℚ
  similarity_boost : ℚ
deriving Repr, DecidableEq

/-- An outgoing TTS provider HTTP call (the ElevenLabs voice id travels in
the request URL, not the body). -/
inductive TtsCall where
  | cartesia (body : CartesiaRequestBody)
  | elevenlabs (voiceId : String) (body : ElevenlabsRequestBody)
deriving Repr, DecidableEq

/-- Outcome of one provider HTTP call: success with an audio buffer, a
non-success HTTP response, or a thrown exception. -/
inductive ProviderOutcome where
  | ok (audio : List Nat)
  | httpError (status : Nat)
  | throws
deriving Repr, DecidableEq

/-- True when the outcome is not a successful response. -/
def outcomeFails : ProviderOutcome → Bool
  | .ok _ => false
  | _ => true

/-- Environment of one `/api/tts` request: the configured API keys and the
outcome each provider would produce if called. -/
structure TtsEnv where
  cartesiaApiKey : Option String
  elevenlabsApiKey : Option String
  cartesiaOutcome : ProviderOutcome
  elevenlabsOutcome : ProviderOutcome
deriving Repr, DecidableEq

/-- HTTP result of the `/api/tts` handler. -/
inductive TtsResult where
  | badRequest (message error : String)
  | audio (provider contentType : String) (buffer : List Nat)
  | unavailable (message error : String)
  | serverError (message error : String)
deriving Repr, DecidableEq

/-- The placeholder value that disables the Cartesia key. -/
def cartesiaPlaceholder : String := "your_cartesia_api_key_here"

/-- The placeholder value that disables the ElevenLabs key. -/
def elevenlabsPlaceholder : String := "your_elevenlabs_api_key_here"

/-- JS `apiKey && apiKey !== placeholder`: an absent or empty key is falsy,
and the placeholder is rejected explicitly. -/
def keyConfigured : Option String → String → Bool
  | none, _ => false
  | some k, ph => k != "" && k != ph

/-- `cartesiaVoiceMapping[voiceId] || default`: the single mapping entry and
the default are the same voice id. -/
def cartesiaVoiceFor (voiceId : String) : String :=
  if voiceId = "iWNf11sz1GrUE4ppxTOL" then "be79f378-47fe-4f9c-b92b-f02cefa62ccf"
  else "be79f378-47fe-4f9c-b92b-f02cefa62ccf"

/-- The Cartesia request body assembled by the handler. -/
def mkCartesiaBody (req : TtsRequest) (limitedText detectedLanguage : String) :
    CartesiaRequestBody :=
  { model_id := jsOrStr req.cartesiaModelId "sonic-multilingual",
    transcript := limitedText,
    voiceMode := "id",
    voiceId := cartesiaVoiceFor req.voiceId,
    speed := speedOrNormal req.speed,
    emotion := emotionsOrDefault req.emotions,
    outputContainer := "wav",
    outputEncoding := "pcm_s16le",
    sampleRate := 44100,
    language := detectedLanguage }

/-- The ElevenLabs request body assembled by the handler
(`stability || 0.6`, `similarityBoost || 0.8`). -/
def mkElevenBody (req : TtsRequest) (limitedText : String) : ElevenlabsRequestBody :=
  { text := limitedText,
    model_id := jsOrStr req.modelId "eleven_multilingual_v2",
    stability := jsOrRat req.stability (6 / 10),
    similarity_boost := jsOrRat req.similarityBoost (8 / 10) }

/-- The ElevenLabs tier: skipped without any HTTP call when the key is not
configured; otherwise called once, returning its audio on success and the
terminal 503 failure otherwise. -/
def elevenTier (env : TtsEnv) (req : TtsRequest) (limitedText : String)
    (callsSoFar : List TtsCall) : TtsResult × List TtsCall :=
  if keyConfigured env.elevenlabsApiKey elevenlabsPlaceholder then
    let body := mkElevenBody req limitedText
    let calls := callsSoFar ++ [.elevenlabs req.voiceId body]
    match env.elevenlabsOutcome with
    | .ok audio => (.audio "elevenlabs" "audio/mpeg" audio, calls)
    | _ => (.unavailable "Speech synthesis unavailable - please check API configuration"
              "ALL_TTS_PROVIDERS_FAILED", calls)
  else
    (.unavailable "Speech synthesis unavailable - please check API configuration"
       "ALL_TTS_PROVIDERS_FAILED", callsSoFar)

/-- The `/api/tts` handler. `clean` and `correct` model the regex-based text
transformers `cleanTextForSpeech` and `applyPronunciationCorrections`, which
no claim inspects internally; they are passed in as abstract string
functions. An empty `text` fails the zod parse (`z.string().min(1)`) and
lands in the catch-all 500; a whitespace-only `text` hits the explicit
400 EMPTY_TEXT guard. Otherwise the cleaned, corrected, 1500-character
truncated text is synthesized through the Cartesia tier and then the
ElevenLabs tier. The second component is the trace of provider HTTP calls. -/
def ttsHandler (clean correct : String → String) (env : TtsEnv) (req : TtsRequest) :
    TtsResult × List TtsCall :=
  if req.text = "" then
    (.serverError "Internal server error during speech generation" "SERVER_ERROR", [])
  else if (trimStr req.text).length = 0 then
    (.badRequest "Text cannot be empty" "EMPTY_TEXT", [])
  else
    let limitedText := takeChars 1500 (correct (clean req.text))
    let detectedLanguage := detectLanguage limitedText
    if keyConfigured env.cartesiaApiKey cartesiaPlaceholder then
      let body := mkCartesiaBody req limitedText detectedLanguage
      match env.cartesiaOutcome with
      | .ok audio => (.audio "cartesia" "audio/wav" audio, [.cartesia body])
      | _ => elevenTier env req limitedText [.cartesia body]
    else
      elevenTier env req limitedText []

/-- The transcript field a provider call carries in its request body. -/
def transcriptOf : TtsCall → String
  | .cartesia b => b.transcript
  | .elevenlabs _ b => b.text

/-- Recognizer for Cartesia calls in a trace. -/
def isCartesiaCall : TtsCall → Bool
  | .cartesia _ => true
  | _ => false

/-- Recognizer for ElevenLabs calls in a trace. -/
def isElevenCall : TtsCall → Bool
  | .elevenlabs _ _ => true
  | _ => false

/-! ## Shared lemmas -/

theorem startsWithL_eq_true (n : List Char) :
    ∀ h : List Char, startsWithL n h = true ↔ n <+: h := by
  induction n with
  | nil => intro h; simp [startsWithL]
  | cons a as ih =>
    intro h
    cases h with
    | nil => simp [startsWithL]
    | cons b bs => simp [startsWithL, List.cons_prefix_cons, ih]

theorem containsSubstr_eq_true (n : List Char) :
    ∀ h : List Char, containsSubstr n h = true ↔ n <:+: h := by
  intro h
  induction h with
  | nil => simp [containsSubstr, List.isEmpty_iff]
  | cons c t ih =>
    simp [containsSubstr, startsWithL_eq_true, ih, List.infix_cons_iff]

theorem strContains_eq_true (hay needle : String) :
    strContains hay needle = true ↔ needle.data <:+: hay.data :=
  containsSubstr_eq_true needle.data hay.data

theorem strContains_empty (hay : String) : strContains hay "" = true := by
  exact (strContains_eq_true hay "").mpr ⟨[], hay.data, rfl⟩

theorem takeChars_length_le (n : Nat) (s : String) : (takeChars n s).length ≤ n := by
  show (s.data.take n).length ≤ n
  rw [List.length_take]
  exact Nat.min_le_left _ _

/-! ## Claims -/

/-- C5: for every query string q, `searchCollegeInfo q` returns exactly the
records whose lowercased title, content or category contains the lowercased q
as a substring, in stored order (a sublist of the store), returns every
record when q is empty, and leaves the storage state unchanged. -/
theorem C5_search_is_lowercased_substring_filter (s : MemStorage) (q : String) :
    ((searchCollegeInfo s q).1.Sublist s.collegeInfo) ∧
    (∀ r, r ∈ (searchCollegeInfo s q).1 ↔
        r ∈ s.collegeInfo ∧
        ((lowerStr q).data <:+: (lowerStr r.title).data ∨
         (lowerStr q).data <:+: (lowerStr r.content).data ∨
         (lowerStr q).data <:+: (lowerStr r.category).data)) ∧
    (searchCollegeInfo s "").1 = s.collegeInfo ∧
    (searchCollegeInfo s q).2 = s := by
  refine ⟨List.filter_sublist _, ?_, ?_, rfl⟩
  · intro r
    simp only [searchCollegeInfo, List.mem_filter, Bool.or_eq_true, strContains_eq_true]
    tauto
  · have hall : ∀ r ∈ s.collegeInfo,
        (strContains (lowerStr r.title) (lowerStr "") ||
         strContains (lowerStr r.content) (lowerStr "") ||
         strContains (lowerStr r.category) (lowerStr "")) = true := by
      intro r _
      simp [strContains_empty, lowerStr]
    simpa [searchCollegeInfo] using List.filter_eq_self.mpr hall

/-- C6: `getCollegeInfoByCategory c` returns exactly the records whose
category is strictly equal to c, in stored order, and leaves the storage
state unchanged. -/
theorem C6_category_filter_is_strict_equality (s : MemStorage) (c : String) :
    ((getCollegeInfoByCategory s c).1.Sublist s.collegeInfo) ∧
    (∀ r, r ∈ (getCollegeInfoByCategory s c).1 ↔ r ∈ s.collegeInfo ∧ r.category = c) ∧
    (getCollegeInfoByCategory s c).2 = s := by
  refine ⟨List.filter_sublist _, ?_, rfl⟩
  intro r
  simp [getCollegeInfoByCategory, List.mem_filter]

/-- Closed witness for C5 at a concrete store and query. -/
theorem C5_search_is_lowercased_substring_filter_witness :
    ((searchCollegeInfo ⟨[], [⟨0, "hostel", "Hostel Timings", "Boys hostel timing is 10 PM", none⟩], 1⟩
        "HOSTEL").1.Sublist
      (⟨[], [⟨0, "hostel", "Hostel Timings", "Boys hostel timing is 10 PM", none⟩], 1⟩ :
        MemStorage).collegeInfo) ∧
    (∀ r, r ∈ (searchCollegeInfo
        ⟨[], [⟨0, "hostel", "Hostel Timings", "Boys hostel timing is 10 PM", none⟩], 1⟩
        "HOSTEL").1 ↔
      r ∈ (⟨[], [⟨0, "hostel", "Hostel Timings", "Boys hostel timing is 10 PM", none⟩], 1⟩ :
            MemStorage).collegeInfo ∧
      ((lowerStr "HOSTEL").data <:+: (lowerStr r.title).data ∨
       (lowerStr "HOSTEL").data <:+: (lowerStr r.content).data ∨
       (lowerStr "HOSTEL").data <:+: (lowerStr r.category).data)) ∧
    (searchCollegeInfo
        ⟨[], [⟨0, "hostel", "Hostel Timings", "Boys hostel timing is 10 PM", none⟩], 1⟩ "").1 =
      (⟨[], [⟨0, "hostel", "Hostel Timings", "Boys hostel timing is 10 PM", none⟩], 1⟩ :
        MemStorage).collegeInfo ∧
    (searchCollegeInfo
        ⟨[], [⟨0, "hostel", "Hostel Timings", "Boys hostel timing is 10 PM", none⟩], 1⟩
        "HOSTEL").2 =
      ⟨[], [⟨0, "hostel", "Hostel Timings", "Boys hostel timing is 10 PM", none⟩], 1⟩ :=
  C5_search_is_lowercased_substring_filter
    ⟨[], [⟨0, "hostel", "Hostel Timings", "Boys hostel timing is 10 PM", none⟩], 1⟩ "HOSTEL"

/-- Closed witness for C6 at a concrete store and category. -/
theorem C6_category_filter_is_strict_equality_witness :
    ((getCollegeInfoByCategory ⟨[], [⟨0, "hostel", "T", "C", none⟩], 1⟩ "hostel").1.Sublist
      (⟨[], [⟨0, "hostel", "T", "C", none⟩], 1⟩ : MemStorage).collegeInfo) ∧
    (∀ r, r ∈ (getCollegeInfoByCategory ⟨[], [⟨0, "hostel", "T", "C", none⟩], 1⟩ "hostel").1 ↔
      r ∈ (⟨[], [⟨0, "hostel", "T", "C", none⟩], 1⟩ : MemStorage).collegeInfo ∧
        r.category = "hostel") ∧
    (getCollegeInfoByCategory ⟨[], [⟨0, "hostel", "T", "C", none⟩], 1⟩ "hostel").2 =
      ⟨[], [⟨0, "hostel", "T", "C", none⟩], 1⟩ :=
  C6_category_filter_is_strict_equality ⟨[], [⟨0, "hostel", "T", "C", none⟩], 1⟩ "hostel"

/-- C8: the read operations return the storage state unchanged,
`createChatMessage` does not touch the fact store, and `createCollegeInfo`
appends exactly one record whose id is fresh, preserving every previously
stored record in place and re-establishing the freshness invariant. -/
theorem C8_fact_store_append_only (s : MemStorage) (c q : String)
    (info : InsertCollegeInfo) (m : InsertChatMessage) (now : Nat)
    (hfresh : collegeIdsFresh s) :
    (getCollegeInfo s).2 = s ∧
    (getCollegeInfoByCategory s c).2 = s ∧
    (searchCollegeInfo s q).2 = s ∧
    (createChatMessage s m now).2.collegeInfo = s.collegeInfo ∧
    (createCollegeInfo s info).2.collegeInfo = s.collegeInfo ++ [(createCollegeInfo s info).1] ∧
    (createCollegeInfo s info).1.id ∉ s.collegeInfo.map (fun r => r.id) ∧
    collegeIdsFresh (createCollegeInfo s info).2 := by
  refine ⟨rfl, rfl, rfl, rfl, rfl, ?_, ?_⟩
  · intro hmem
    rcases List.mem_map.mp hmem with ⟨r, hr, hid⟩
    have := hfresh r hr
    simp [createCollegeInfo] at hid
    omega
  · intro r hr
    simp [createCollegeInfo] at hr ⊢
    rcases hr with hr | hr
    · exact Nat.lt_succ_of_lt (hfresh r hr)
    · simp [hr]

/-- Closed witness for C8 at a concrete storage state. -/
theorem C8_fact_store_append_only_witness :
    collegeIdsFresh ⟨[], [], 0⟩ ∧
    ((getCollegeInfo ⟨[], [], 0⟩).2 = ⟨[], [], 0⟩ ∧
     (getCollegeInfoByCategory ⟨[], [], 0⟩ "hostel").2 = ⟨[], [], 0⟩ ∧
     (searchCollegeInfo ⟨[], [], 0⟩ "fees").2 = ⟨[], [], 0⟩ ∧
     (createChatMessage ⟨[], [], 0⟩ ⟨"hi", "user", none⟩ 0).2.collegeInfo = [] ∧
     (createCollegeInfo ⟨[], [], 0⟩ ⟨"hostel", "t", "c", none⟩).2.collegeInfo =
       [] ++ [(createCollegeInfo ⟨[], [], 0⟩ ⟨"hostel", "t", "c", none⟩).1] ∧
     (createCollegeInfo ⟨[], [], 0⟩ ⟨"hostel", "t", "c", none⟩).1.id ∉
       ([] : List CollegeInfo).map (fun r => r.id) ∧
     collegeIdsFresh (createCollegeInfo ⟨[], [], 0⟩ ⟨"hostel", "t", "c", none⟩).2) := by
  constructor
  · intro r hr; simp at hr
  · exact C8_fact_store_append_only ⟨[], [], 0⟩ "hostel" "fees"
      ⟨"hostel", "t", "c", none⟩ ⟨"hi", "user", none⟩ 0 (by intro r hr; simp at hr)

/-- C3 counterexample: the message "hostel" contains the hostel keyword and
none of the greeting keywords, yet when the chat-completion call fails by
throwing an exception the substituted reply is the untouched default
greeting, not the hostel canned reply (nor any keyword-matched reply). -/
theorem C3_counterexample_thrown_call_ignores_keywords :
    strContains (lowerStr "hostel") "hostel" = true ∧
    strContains (lowerStr "hostel") "hello" = false ∧
    strContains (lowerStr "hostel") "hi" = false ∧
    strContains (lowerStr "hostel") "hlo" = false ∧
    assistantResponseFor "hostel" GroqOutcome.throws = defaultAssistantResponse ∧
    defaultAssistantResponse ≠ hostelFallback ∧
    assistantResponseFor "hostel" GroqOutcome.throws ≠ fallbackReply "hostel" := by
  refine ⟨by decide, by decide, by decide, by decide, rfl, by decide, by decide⟩

/-- C3 (amended): when the chat-completion call returns a non-success HTTP
response the substituted reply is the keyword-matched canned reply (greeting
for hello/hi/hlo, hostel, admission, generic echo otherwise); when the call
throws an exception the substituted reply is the default greeting,
independent of keywords. -/
theorem C3_amended_keyword_fallback (message : String) (status : Nat) (body : String) :
    assistantResponseFor message (.httpError status body) =
      (if strContains (lowerStr message) "hello" || strContains (lowerStr message) "hi" ||
          strContains (lowerStr message) "hlo" then greetingFallback
       else if strContains (lowerStr message) "hostel" then hostelFallback
       else if strContains (lowerStr message) "admission" then admissionFallback
       else genericFallback message) ∧
    assistantResponseFor message GroqOutcome.throws = defaultAssistantResponse :=
  ⟨rfl, rfl⟩

/-- Closed witness for the amended C3 at a concrete message and failure. -/
theorem C3_amended_keyword_fallback_witness :
    assistantResponseFor "hostel" (.httpError 500 "err") =
      (if strContains (lowerStr "hostel") "hello" || strContains (lowerStr "hostel") "hi" ||
          strContains (lowerStr "hostel") "hlo" then greetingFallback
       else if strContains (lowerStr "hostel") "hostel" then hostelFallback
       else if strContains (lowerStr "hostel") "admission" then admissionFallback
       else genericFallback "hostel") ∧
    assistantResponseFor "hostel" GroqOutcome.throws = defaultAssistantResponse :=
  C3_amended_keyword_fallback "hostel" 500 "err"

/-- C4: for every validated `/api/ask` request the user message is persisted
(role user) before the chat-completion call, the assistant reply is persisted
(role assistant) after it for every call outcome, and the JSON response
carries the persisted assistant reply text and its message id. -/
theorem C4_ask_persists_user_then_assistant (s : MemStorage) (message : String)
    (language : Option String) (o : GroqOutcome) (now : Nat) (h : message ≠ "") :
    ∃ userMsg saved : ChatMessage,
      (askHandler s message language o now).2.1.chatMessages =
        s.chatMessages ++ [userMsg, saved] ∧
      userMsg.role = "user" ∧ userMsg.content = message ∧
      saved.role = "assistant" ∧ saved.content = assistantResponseFor message o ∧
      (askHandler s message language o now).1.response = saved.content ∧
      (askHandler s message language o now).1.messageId = saved.id ∧
      (askHandler s message language o now).2.2 =
        [.persist "user" message,
         .groqCall (systemPromptOf s.collegeInfo) message,
         .persist "assistant" (assistantResponseFor message o)] := by
  refine ⟨{ id := s.nextId, content := message, role := "user",
            language := some (jsOrStr language "en"), timestamp := now },
          { id := s.nextId + 1, content := assistantResponseFor message o,
            role := "assistant", language := some (jsOrStr language "en"),
            timestamp := now }, ?_⟩
  simp [askHandler, h, createChatMessage]

/-- Closed witness for C4 at a concrete request. -/
theorem C4_ask_persists_user_then_assistant_witness :
    ("hi" : String) ≠ "" ∧
    (∃ userMsg saved : ChatMessage,
      (askHandler ⟨[], [], 0⟩ "hi" none (.ok (some "Namaste")) 0).2.1.chatMessages =
        (⟨[], [], 0⟩ : MemStorage).chatMessages ++ [userMsg, saved] ∧
      userMsg.role = "user" ∧ userMsg.content = "hi" ∧
      saved.role = "assistant" ∧
      saved.content = assistantResponseFor "hi" (.ok (some "Namaste")) ∧
      (askHandler ⟨[], [], 0⟩ "hi" none (.ok (some "Namaste")) 0).1.response = saved.content ∧
      (askHandler ⟨[], [], 0⟩ "hi" none (.ok (some "Namaste")) 0).1.messageId = saved.id ∧
      (askHandler ⟨[], [], 0⟩ "hi" none (.ok (some "Namaste")) 0).2.2 =
        [.persist "user" "hi",
         .groqCall (systemPromptOf (⟨[], [], 0⟩ : MemStorage).collegeInfo) "hi",
         .persist "assistant" (assistantResponseFor "hi" (.ok (some "Namaste")))]) :=
  ⟨by decide,
   C4_ask_persists_user_then_assistant ⟨[], [], 0⟩ "hi" none (.ok (some "Namaste")) 0
     (by decide)⟩

/-- C7: the college-context block is the fact-store records rendered
`title: content` and joined with newlines in store order, the system prompt
wraps it between two fixed text blocks, and the prompt sent on the
chat-completion call equals that store-only expression, hence does not vary
with the user message. -/
theorem C7_prompt_is_fixed_template_around_context (s : MemStorage) (message : String)
    (language : Option String) (o : GroqOutcome) (now : Nat) (h : message ≠ "") :
    contextOf s.collegeInfo =
      String.intercalate "\n"
        (s.collegeInfo.map (fun info => info.title ++ ": " ++ info.content)) ∧
    systemPromptOf s.collegeInfo =
      promptHeader ++ contextOf s.collegeInfo ++ promptInstructions ∧
    (askHandler s message language o now).2.2 =
      [.persist "user" message,
       .groqCall (systemPromptOf s.collegeInfo) message,
       .persist "assistant" (assistantResponseFor message o)] := by
  refine ⟨rfl, rfl, ?_⟩
  simp [askHandler, h, createChatMessage]

/-- Closed witness for C7 at a concrete request. -/
theorem C7_prompt_is_fixed_template_around_context_witness :
    ("fees" : String) ≠ "" ∧
    (contextOf (⟨[], [], 0⟩ : MemStorage).collegeInfo =
      String.intercalate "\n"
        ((⟨[], [], 0⟩ : MemStorage).collegeInfo.map
          (fun info => info.title ++ ": " ++ info.content)) ∧
     systemPromptOf (⟨[], [], 0⟩ : MemStorage).collegeInfo =
       promptHeader ++ contextOf (⟨[], [], 0⟩ : MemStorage).collegeInfo ++ promptInstructions ∧
     (askHandler ⟨[], [], 0⟩ "fees" none .throws 3).2.2 =
       [.persist "user" "fees",
        .groqCall (systemPromptOf (⟨[], [], 0⟩ : MemStorage).collegeInfo) "fees",
        .persist "assistant" (assistantResponseFor "fees" .throws)]) :=
  ⟨by decide,
   C7_prompt_is_fixed_template_around_context ⟨[], [], 0⟩ "fees" none .throws 3 (by decide)⟩

/-- C1: with both provider keys configured and non-blank text, the endpoint
attempts Cartesia first; on a successful Cartesia response it returns the
Cartesia audio buffer without contacting ElevenLabs; when Cartesia fails
(error status or thrown exception) ElevenLabs is attempted and its buffer
returned on success; when both tiers fail the endpoint returns the terminal
503 failure with code ALL_TTS_PROVIDERS_FAILED. -/
theorem C1_tts_provider_fallback_chain (clean correct : String → String)
    (env : TtsEnv) (req : TtsRequest)
    (hc : keyConfigured env.cartesiaApiKey cartesiaPlaceholder = true)
    (he : keyConfigured env.elevenlabsApiKey elevenlabsPlaceholder = true)
    (ht : (trimStr req.text).length ≠ 0) :
    (∀ buf, env.cartesiaOutcome = .ok buf →
        (ttsHandler clean correct env req).1 = .audio "cartesia" "audio/wav" buf ∧
        ((ttsHandler clean correct env req).2.countP (fun c => isElevenCall c)) = 0) ∧
    (outcomeFails env.cartesiaOutcome = true →
      ∀ buf, env.elevenlabsOutcome = .ok buf →
        (ttsHandler clean correct env req).1 = .audio "elevenlabs" "audio/mpeg" buf) ∧
    (outcomeFails env.cartesiaOutcome = true → outcomeFails env.elevenlabsOutcome = true →
        (ttsHandler clean correct env req).1 =
          .unavailable "Speech synthesis unavailable - please check API configuration"
            "ALL_TTS_PROVIDERS_FAILED") := by
  obtain ⟨ck, ek, co, eo⟩ := env
  have hne : req.text ≠ "" := fun habs => ht (by rw [habs]; rfl)
  refine ⟨?_, ?_, ?_⟩
  · rintro buf rfl
    constructor <;>
      simp [ttsHandler, hne, ht, hc, List.countP_cons, List.countP_nil, isElevenCall]
  · rintro hfail buf rfl
    cases co with
    | ok a => simp [outcomeFails] at hfail
    | httpError st => simp [ttsHandler, hne, ht, hc, elevenTier, he]
    | throws => simp [ttsHandler, hne, ht, hc, elevenTier, he]
  · intro hfc hfe
    cases co with
    | ok a => simp [outcomeFails] at hfc
    | httpError st =>
      cases eo with
      | ok a => simp [outcomeFails] at hfe
      | httpError st2 => simp [ttsHandler, hne, ht, hc, elevenTier, he]
      | throws => simp [ttsHandler, hne, ht, hc, elevenTier, he]
    | throws =>
      cases eo with
      | ok a => simp [outcomeFails] at hfe
      | httpError st2 => simp [ttsHandler, hne, ht, hc, elevenTier, he]
      | throws => simp [ttsHandler, hne, ht, hc, elevenTier, he]

/-- Closed witness for C1: a request where Cartesia succeeds. -/
theorem C1_tts_provider_fallback_chain_witness :
    keyConfigured (some "k1") cartesiaPlaceholder = true ∧
    keyConfigured (some "k2") elevenlabsPlaceholder = true ∧
    (trimStr "hello").length ≠ 0 ∧
    ((ttsHandler id id ⟨some "k1", some "k2", .ok [7], .ok [8]⟩
        ⟨"hello", "v", none, none, none, none, none, none, none⟩).1 =
      .audio "cartesia" "audio/wav" [7] ∧
     ((ttsHandler id id ⟨some "k1", some "k2", .ok [7], .ok [8]⟩
        ⟨"hello", "v", none, none, none, none, none, none, none⟩).2.countP
          (fun c => isElevenCall c)) = 0) :=
  ⟨by decide, by decide, by decide,
   (C1_tts_provider_fallback_chain id id
      ⟨some "k1", some "k2", .ok [7], .ok [8]⟩
      ⟨"hello", "v", none, none, none, none, none, none, none⟩
      (by decide) (by decide) (by decide)).1 [7] rfl⟩

/-- C2: per request each external provider is called at most once, with the
exact count characterized: a provider whose key is absent or a placeholder is
never called, Cartesia is called exactly once on every valid request with a
configured key, and ElevenLabs is called exactly once precisely when its key
is configured and the Cartesia tier was skipped or failed. -/
theorem C2_each_provider_called_at_most_once (clean correct : String → String)
    (env : TtsEnv) (req : TtsRequest) :
    ((ttsHandler clean correct env req).2.countP (fun c => isCartesiaCall c)) =
      (if (trimStr req.text).length ≠ 0 ∧
          keyConfigured env.cartesiaApiKey cartesiaPlaceholder = true then 1 else 0) ∧
    ((ttsHandler clean correct env req).2.countP (fun c => isElevenCall c)) =
      (if (trimStr req.text).length ≠ 0 ∧
          keyConfigured env.elevenlabsApiKey elevenlabsPlaceholder = true ∧
          (keyConfigured env.cartesiaApiKey cartesiaPlaceholder = false ∨
           outcomeFails env.cartesiaOutcome = true) then 1 else 0) := by
  obtain ⟨ck, ek, co, eo⟩ := env
  have h0 : (trimStr "").length = 0 := rfl
  by_cases hne : req.text = ""
  · simp [ttsHandler, hne, h0]
  · by_cases ht : (trimStr req.text).length = 0
    · simp [ttsHandler, hne, ht]
    · by_cases hc : keyConfigured ck cartesiaPlaceholder = true <;>
        by_cases he : keyConfigured ek elevenlabsPlaceholder = true <;>
          cases co <;> cases eo <;>
            simp [ttsHandler, hne, ht, hc, he, elevenTier, outcomeFails,
                  List.countP_cons, List.countP_nil, isCartesiaCall, isElevenCall]

/-- Closed witness for C2 at a concrete environment and request. -/
theorem C2_each_provider_called_at_most_once_witness :
    ((ttsHandler id id ⟨none, some "k", .throws, .ok [3]⟩
        ⟨"hello", "v", none, none, none, none, none, none, none⟩).2.countP
          (fun c => isCartesiaCall c)) =
      (if (trimStr "hello").length ≠ 0 ∧
          keyConfigured none cartesiaPlaceholder = true then 1 else 0) ∧
    ((ttsHandler id id ⟨none, some "k", .throws, .ok [3]⟩
        ⟨"hello", "v", none, none, none, none, none, none, none⟩).2.countP
          (fun c => isElevenCall c)) =
      (if (trimStr "hello").length ≠ 0 ∧
          keyConfigured (some "k") elevenlabsPlaceholder = true ∧
          (keyConfigured none cartesiaPlaceholder = false ∨
           outcomeFails ProviderOutcome.throws = true) then 1 else 0) :=
  C2_each_provider_called_at_most_once id id ⟨none, some "k", .throws, .ok [3]⟩
    ⟨"hello", "v", none, none, none, none, none, none, none⟩

/-- C9: every provider call of a request carries as transcript exactly the
cleaned, pronunciation-corrected text truncated to 1500 characters, and no
request body ever carries a transcript longer than 1500 characters. -/
theorem C9_transcript_cleaned_and_truncated (clean correct : String → String)
    (env : TtsEnv) (req : TtsRequest) :
    ((ttsHandler clean correct env req).2.all (fun call =>
        (transcriptOf call == takeChars 1500 (correct (clean req.text))) &&
        decide ((transcriptOf call).length ≤ 1500))) = true := by
  obtain ⟨ck, ek, co, eo⟩ := env
  have hlen : (takeChars 1500 (correct (clean req.text))).length ≤ 1500 :=
    takeChars_length_le _ _
  by_cases hne : req.text = ""
  · simp [ttsHandler, hne]
  · by_cases ht : (trimStr req.text).length = 0
    · simp [ttsHandler, hne, ht]
    · by_cases hc : keyConfigured ck cartesiaPlaceholder = true <;>
        by_cases he : keyConfigured ek elevenlabsPlaceholder = true <;>
          cases co <;> cases eo <;>
            simp [ttsHandler, hne, ht, hc, he, elevenTier, transcriptOf,
                  mkCartesiaBody, mkElevenBody, List.all_cons, List.all_nil,
                  decide_eq_true_eq, hlen]

/-- Closed witness for C9 at a concrete environment and request. -/
theorem C9_transcript_cleaned_and_truncated_witness :
    ((ttsHandler id id ⟨some "k1", some "k2", .httpError 500, .ok [3]⟩
        ⟨"hello world", "v", none, none, none, none, none, none, none⟩).2.all
      (fun call =>
        (transcriptOf call == takeChars 1500 (id (id ("hello world" : String)))) &&
        decide ((transcriptOf call).length ≤ 1500))) = true :=
  C9_transcript_cleaned_and_truncated id id ⟨some "k1", some "k2", .httpError 500, .ok [3]⟩
    ⟨"hello world", "v", none, none, none, none, none, none, none⟩

/-- C10: a request whose text is non-empty but blank after trimming is
rejected with the 400 EMPTY_TEXT error and no provider HTTP call is made. -/
theorem C10_blank_text_rejected_without_calls (clean correct : String → String)
    (env : TtsEnv) (req : TtsRequest)
    (hne : req.text ≠ "") (hws : (trimStr req.text).length = 0) :
    (ttsHandler clean correct env req).1 = .badRequest "Text cannot be empty" "EMPTY_TEXT" ∧
    (ttsHandler clean correct env req).2 = [] := by
  constructor <;> simp [ttsHandler, hne, hws]

/-- Closed witness for C10: a single-space text with both keys configured. -/
theorem C10_blank_text_rejected_without_calls_witness :
    (" " : String) ≠ "" ∧ (trimStr " ").length = 0 ∧
    ((ttsHandler id id ⟨some "k1", some "k2", .ok [1], .ok [2]⟩
        ⟨" ", "v", none, none, none, none, none, none, none⟩).1 =
      .badRequest "Text cannot be empty" "EMPTY_TEXT" ∧
     (ttsHandler id id ⟨some "k1", some "k2", .ok [1], .ok [2]⟩
        ⟨" ", "v", none, none, none, none, none, none, none⟩).2 = []) :=
  ⟨by decide, by decide,
   C10_blank_text_rejected_without_calls id id
     ⟨some "k1", some "k2", .ok [1], .ok [2]⟩
     ⟨" ", "v", none, none, none, none, none, none, none⟩ (by decide) (by decide)⟩

end CollegeVoice
